import Mathlib

/-!
Verification development for the `libgpiod_pulsein` daemon
(`src/libgpiod_pulsein.c`): a GPIO pulse-width capture engine with a ring
buffer of pulse samples, a pause/resume gate, a trigger-pulse driver, a
tick calibrator and a single-character control protocol served over a
SysV message queue.

The C source is shallowly embedded below.  Times are modelled as integer
microsecond counts, `unsigned int` values as `Nat` reduced mod 2^32 where
the 32-bit representation matters, and fatal `exit(1)` paths as explicit
error results.  The ring buffer implementation (`circular_buffer.c`) is
not part of the sources at hand, only its callers are; it is modelled
from the specification, as noted on each of its operations.
-/

/-- Two's-complement reinterpretation of an unsigned 32-bit value as a
signed 32-bit `int`, as performed by passing an `unsigned int` argument
to `printf`/`snprintf` with a `"%d"` conversion. -/
def toInt32 (v : Nat) : Int :=
  if v % 2 ^ 32 < 2 ^ 31 then ((v % 2 ^ 32 : Nat) : Int)
  else ((v % 2 ^ 32 : Nat) : Int) - 2 ^ 32

/-- The reply string produced by `snprintf(buf, 15, "%d", pulse)` for an
`unsigned int pulse`: decimal rendering of the signed 32-bit
reinterpretation. -/
def formatReply (v : Nat) : String :=
  (toInt32 v).repr

/-- Ring buffer of pulse samples.  Modelled from the spec: the file
`circular_buffer.c` of this repository is not among the sources, only its
header is included and its operations called; §4.1 describes it as a
fixed-capacity FIFO with overwrite-on-full insert, pop of the oldest
element, random-access peek from the head and a size query.  `data` holds
the stored samples oldest first. -/
structure CBuf where
  capacity : Nat
  data : List Nat
  deriving DecidableEq, Repr

/-- Modelled from the spec: `circular_buf_size`, the number of stored
elements (§4.1). -/
def CBuf.size (b : CBuf) : Nat :=
  b.data.length

/-- Modelled from the spec: `circular_buf_reset` zeroes the size without
touching the storage (§4.1). -/
def CBuf.reset (b : CBuf) : CBuf :=
  { b with data := [] }

/-- Modelled from the spec: `circular_buf_put` inserts at the tail,
overwriting (and advancing past) the oldest element when full (§4.1).
The C function also reports whether an overwrite occurred; no caller in
`libgpiod_pulsein.c` uses that flag, so it is not modelled. -/
def CBuf.put (b : CBuf) (v : Nat) : CBuf :=
  if b.data.length = b.capacity then { b with data := b.data.tail ++ [v] }
  else { b with data := b.data ++ [v] }

/-- Modelled from the spec: `circular_buf_get` removes and returns the
oldest element, failing (return `-1`) on an empty buffer (§4.1). -/
def CBuf.get (b : CBuf) : Option (Nat × CBuf) :=
  match b.data with
  | [] => none
  | x :: rest => some (x, { b with data := rest })

/-- Modelled from the spec: `circular_buf_peek` returns the element at a
non-negative offset from the head without removing it, failing (return
`-1`) when the index is at or beyond the size (§4.1). -/
def CBuf.peek (b : CBuf) (i : Nat) : Option Nat :=
  b.data.get? i

/-- One pass of the `for` loop in `print_pulses`: pop and print each
stored sample as `"%d"`, separating successive entries with `", "`. -/
def printLoop : List Nat → String
  | [] => ""
  | [x] => formatReply x
  | x :: y :: rest => formatReply x ++ (", ") ++ printLoop (y :: rest)

/-- `print_pulses`: dump the entire ring buffer, oldest first, popping
every element. -/
def printPulses (b : CBuf) : String :=
  printLoop b.data

/-- Configuration of the sampling engine fixed at startup: the `-i` idle
polarity, and the `-t` exit-on-timeout flag with its bound in
microseconds. -/
structure PollCfg where
  idleState : Bool
  exitOnTimeout : Bool
  timeoutUs : Int
  deriving DecidableEq, Repr

/-- Mutable state of `polling_thread_runner` (wall-clock timing mode):
the timing baseline `previous_time` (microseconds) and
`previous_value`, the `waiting_for_first_change` marker, and the shared
ring buffer. -/
structure PollState where
  previousTime : Int
  previousValue : Bool
  waiting : Bool
  buffer : CBuf
  deriving DecidableEq, Repr

/-- Outcome of one iteration of the sampling loop: either continue with
an updated state, or dump the buffer (the `print_pulses` output) and
terminate the process. -/
inductive PollResult where
  | cont (st : PollState)
  | exited (dump : String)
  deriving DecidableEq, Repr

/-- State of `polling_thread_runner` on entry to its loop (lines
465-482 together with the buffer initialisation in `main`):
`previous_time` from `gettimeofday`, `previous_value = idle_state`,
`waiting_for_first_change = true`, empty ring buffer. -/
def initState (cfg : PollCfg) (cap : Nat) (t0 : Int) : PollState :=
  { previousTime := t0
    previousValue := cfg.idleState
    waiting := true
    buffer := { capacity := cap, data := [] } }

/-- The `was_paused` block at the top of the sampling loop (lines
488-501): after a resume the timestamp is re-read, the last level reset
to idle and the first-change marker re-armed; the buffer is untouched. -/
def resumeReset (cfg : PollCfg) (st : PollState) (now : Int) : PollState :=
  { st with previousTime := now, previousValue := cfg.idleState, waiting := true }

/-- One iteration of the sampling loop of `polling_thread_runner`
(lines 508-565, wall-clock mode): read the level `v` at time `now`,
compute `delta` since the baseline, exit with a full dump when the
timeout is reached or exceeded, otherwise on a transition either discard
the first change out of idle or enqueue `delta`, updating the baseline
in both cases. -/
def pollStep (cfg : PollCfg) (st : PollState) (v : Bool) (now : Int) : PollResult :=
  if cfg.exitOnTimeout = true ∧ cfg.timeoutUs ≤ now - st.previousTime then
    PollResult.exited (printPulses st.buffer)
  else if v ≠ st.previousValue then
    if st.waiting = true ∧ v ≠ cfg.idleState then
      PollResult.cont { st with waiting := false, previousValue := v, previousTime := now }
    else
      PollResult.cont
        { st with buffer := st.buffer.put (now - st.previousTime).toNat,
                  previousValue := v, previousTime := now }
  else
    PollResult.cont st

/-- State shared between the control-protocol handler in `main` and the
sampling thread: the `paused` and `was_paused` flags and the ring
buffer. -/
structure HandlerState where
  paused : Bool
  wasPaused : Bool
  buffer : CBuf
  deriving DecidableEq, Repr

/-- Side effects the command handler can trigger besides mutating its
state: the `busy_wait_milliseconds` call and the `pulse_output` call of
the `t` branch. -/
inductive HEvent where
  | busyWaitMs (ms : Nat)
  | pulseOutput (lenUs : Nat)
  deriving DecidableEq, Repr

/-- The `i` command body (lines 332-357): sentinel `-1` when
`index >= buf_len || index <= -buf_len`, otherwise negative indices are
mapped to `buf_len + index` and the element peeked; the reply is
formatted with `"%d"` from an `unsigned int`. -/
def cmdIndexReply (b : CBuf) (index : Int) : String :=
  if (b.data.length : Int) ≤ index ∨ index ≤ -(b.data.length : Int) then
    formatReply (2 ^ 32 - 1)
  else
    match b.peek (if index < 0 then ((b.data.length : Int) + index).toNat else index.toNat) with
    | some v => formatReply v
    | none => formatReply (2 ^ 32 - 1)

/-- The command dispatch of `main` (lines 277-357).  `cmd` is the
leading byte of the request, `arg` the decimal payload parsed after it
(`strtoul`/`strtol`).  Returns the new shared state, the side effects
performed, and the reply sent back (tagged type 2), if any.
Unrecognized commands fall through with no effect and no reply. -/
def handleCmd (st : HandlerState) (cmd : Char) (arg : Int) :
    HandlerState × List HEvent × Option String :=
  if cmd = 'p' then
    if st.paused = true then (st, [], none)
    else ({ st with paused := true, wasPaused := true }, [], none)
  else if cmd = 'r' then
    if st.paused = true then ({ st with paused := false }, [], none)
    else (st, [], none)
  else if cmd = 'c' then
    ({ st with buffer := st.buffer.reset }, [], none)
  else if cmd = 'l' then
    (st, [], some ((st.buffer.size : Int).repr))
  else if cmd = 't' then
    if st.paused = true then
      ({ st with paused := false },
       [HEvent.busyWaitMs 80, HEvent.pulseOutput arg.toNat], none)
    else (st, [], none)
  else if cmd = '^' then
    match st.buffer.get with
    | none => (st, [], some (formatReply (2 ^ 32 - 1)))
    | some (x, b2) => ({ st with buffer := b2 }, [], some (formatReply x))
  else if cmd = 'i' then
    (st, [], some (cmdIndexReply st.buffer arg))
  else (st, [], none)

/-- Success/failure of each fallible GPIO call made by `pulse_output`,
in program order: `gpiod_line_request_output`, the first
`gpiod_line_set_value` (to the active level), the second
`gpiod_line_set_value` (back to idle), `gpiod_line_request_input`. -/
structure LineOracle where
  requestOutputOk : Bool
  setActiveOk : Bool
  setIdleOk : Bool
  requestInputOk : Bool
  deriving DecidableEq, Repr

/-- Operations `pulse_output` performs on the GPIO line, in order. -/
inductive LEvent where
  | release
  | requestOutput (level : Bool)
  | setValue (level : Bool)
  | busyWaitMs (ms : Nat)
  | requestInput
  deriving DecidableEq, Repr

/-- `pulse_output` (lines 398-428): release, request as output driven to
`idle_state`, set the non-idle level, busy-wait `trigger_len_us / 1000`
milliseconds (C integer division), set back to idle, release, re-request
as input.  Any failing call prints a diagnostic and terminates the
process (`exit(1)`), returned here as the performed prefix of the trace
together with the diagnostic. -/
def pulse_output (o : LineOracle) (idle_state : Bool) (trigger_len_us : Nat) :
    List LEvent × Option String :=
  if o.requestOutputOk = false then
    ([LEvent.release], some ("Unable to set line to output"))
  else if o.setActiveOk = false then
    ([LEvent.release, LEvent.requestOutput idle_state],
     some ("Unable to set line for trigger pulse"))
  else if o.setIdleOk = false then
    ([LEvent.release, LEvent.requestOutput idle_state, LEvent.setValue (!idle_state),
      LEvent.busyWaitMs (trigger_len_us / 1000)],
     some ("Unable to set line for trigger pulse"))
  else if o.requestInputOk = false then
    ([LEvent.release, LEvent.requestOutput idle_state, LEvent.setValue (!idle_state),
      LEvent.busyWaitMs (trigger_len_us / 1000), LEvent.setValue idle_state,
      LEvent.release],
     some ("Unable to set line to input"))
  else
    ([LEvent.release, LEvent.requestOutput idle_state, LEvent.setValue (!idle_state),
      LEvent.busyWaitMs (trigger_len_us / 1000), LEvent.setValue idle_state,
      LEvent.release, LEvent.requestInput],
     none)

/-- The wall-clock deadline computed by `busy_wait_milliseconds`
(lines 571-585), in microseconds: current time plus
`millis / 1000` seconds and `(millis % 1000) * 1000` microseconds. -/
def busyWaitDeadline (millis now : Nat) : Nat :=
  now + ((millis / 1000) * 1000000 + (millis % 1000) * 1000)

/-- Operations performed by `calculate_us_per_tick` on the line. -/
inductive CalEvent where
  | requestInput
  | read (i : Nat)
  | release
  deriving DecidableEq, Repr

/-- The calibration read loop (lines 447-453): `n` remaining iterations
starting at index `i`; a read returning `-1` is fatal, otherwise every
iteration performs exactly one unconditional read. -/
def calibLoop (readVal : Nat → Int) : Nat → Nat → Except String (List CalEvent)
  | _, 0 => Except.ok []
  | i, n + 1 =>
      if readVal i = -1 then Except.error ("Unable to read line during calibration")
      else
        match calibLoop readVal (i + 1) n with
        | Except.error e => Except.error e
        | Except.ok evs => Except.ok (CalEvent.read i :: evs)

/-- `calculate_us_per_tick` (lines 431-463): request the line as input
(failure fatal), take a wall-clock timestamp, perform 100 reads (read
error fatal), take a second timestamp, compute `(end - start) / 100`,
release the line, return the constant.  `tStart` and `tEnd` are the two
`gettimeofday` results in microseconds. -/
def calculate_us_per_tick (reqInOk : Bool) (readVal : Nat → Int) (tStart tEnd : ℚ) :
    Except String (ℚ × List CalEvent) :=
  if reqInOk = false then Except.error ("Unable to set line to input")
  else
    match calibLoop readVal 0 100 with
    | Except.error e => Except.error e
    | Except.ok evs =>
        Except.ok ((tEnd - tStart) / 100, CalEvent.requestInput :: (evs ++ [CalEvent.release]))

/-- A SysV message: `msg_type` and payload bytes. -/
structure QMsg where
  msgType : Int
  payload : String
  deriving DecidableEq, Repr

/-- The startup drain loop (lines 210-213): `msgrcv` with message type 1
and `IPC_NOWAIT`, repeated until it fails, removes every pending request
message (type 1) from the queue. -/
def drainRequests (q : List QMsg) : List QMsg :=
  q.filter (fun m => m.msgType != 1)

/-- The readiness announcement (lines 215-217): `message[0] = '!'`,
`msg_type = 2`, sent with length 1. -/
def readyAnnouncement : QMsg :=
  { msgType := 2, payload := ("!") }

/-- Startup handshake on the control queue (lines 203-218): drain every
stale request, then post the readiness announcement.  Returns the queue
contents afterwards and the message sent. -/
def startupHandshake (pending : List QMsg) : List QMsg × QMsg :=
  (drainRequests pending ++ [readyAnnouncement], readyAnnouncement)

/-! ## Helper lemmas -/

lemma formatReply_uintMax : formatReply (2 ^ 32 - 1) = ("-1") := by decide

lemma formatReply_small (x : Nat) (hx : x < 2 ^ 31) : formatReply x = Nat.repr x := by
  unfold formatReply toInt32
  rw [Nat.mod_eq_of_lt (lt_trans hx (by norm_num)), if_pos hx]
  rfl

lemma intercalate_go_acc (s : String) : ∀ (l : List String) (x y : String),
    String.intercalate.go (x ++ y) s l = x ++ String.intercalate.go y s l := by
  intro l
  induction l with
  | nil => intro x y; simp [String.intercalate.go]
  | cons a as ih =>
      intro x y
      simp only [String.intercalate.go]
      rw [show x ++ y ++ s ++ a = x ++ (y ++ s ++ a) by simp [String.append_assoc]]
      exact ih x (y ++ s ++ a)

lemma intercalate_cons_cons (s x y : String) (l : List String) :
    String.intercalate s (x :: y :: l) = x ++ s ++ String.intercalate s (y :: l) := by
  simp only [String.intercalate]
  exact intercalate_go_acc s l (x ++ s) y

lemma printLoop_eq_intercalate : ∀ l : List Nat,
    printLoop l = String.intercalate (", ") (l.map formatReply)
  | [] => rfl
  | [x] => rfl
  | x :: y :: rest => by
      rw [printLoop, printLoop_eq_intercalate (y :: rest)]
      simp only [List.map_cons]
      rw [intercalate_cons_cons]

lemma range_read_succ (n i : Nat) :
    (List.range (n + 1)).map (fun j => CalEvent.read (i + j)) =
      CalEvent.read i :: (List.range n).map (fun j => CalEvent.read (i + 1 + j)) := by
  have hfun : ((fun j => CalEvent.read (i + j)) ∘ Nat.succ) =
      (fun j => CalEvent.read (i + 1 + j)) := by
    funext j
    show CalEvent.read (i + (j + 1)) = CalEvent.read (i + 1 + j)
    congr 1
    omega
  rw [List.range_succ_eq_map, List.map_cons, List.map_map, hfun]
  simp

lemma calibLoop_ok (readVal : Nat → Int) :
    ∀ n i, (∀ j, j < n → readVal (i + j) ≠ -1) →
      calibLoop readVal i n =
        Except.ok ((List.range n).map (fun j => CalEvent.read (i + j))) := by
  intro n
  induction n with
  | zero => intro i h; rfl
  | succ n ih =>
      intro i h
      have h0 : ¬ readVal i = -1 := by
        have := h 0 (Nat.succ_pos n)
        simpa using this
      have hrec := ih (i + 1) (fun j hj => by
        have := h (j + 1) (by omega)
        rwa [show i + (j + 1) = i + 1 + j by omega] at this)
      unfold calibLoop
      rw [if_neg h0, hrec, range_read_succ n i]

lemma calibLoop_err (readVal : Nat → Int) :
    ∀ n i, (∃ j, j < n ∧ readVal (i + j) = -1) →
      calibLoop readVal i n = Except.error ("Unable to read line during calibration") := by
  intro n
  induction n with
  | zero => intro i h; obtain ⟨j, hj, -⟩ := h; omega
  | succ n ih =>
      intro i h
      by_cases h0 : readVal i = -1
      · unfold calibLoop; rw [if_pos h0]
      · obtain ⟨j, hj, hv⟩ := h
        have hj0 : j ≠ 0 := by
          intro he
          subst he
          exact h0 (by simpa using hv)
        obtain ⟨k, rfl⟩ : ∃ k, j = k + 1 := ⟨j - 1, by omega⟩
        have hrec := ih (i + 1)
          ⟨k, by omega, by rwa [show i + 1 + k = i + (k + 1) by omega]⟩
        unfold calibLoop
        rw [if_neg h0, hrec]

/-! ## Claim theorems -/

/-- C1 counterexample: the claim asserts that a `t` command clears the
Pause Flag and emits a trigger pulse in every engine state, but the
whole `t` branch is guarded by `if (paused)`: in a non-paused state the
handler performs no busy-wait and no `pulse_output` call, returns the
state unchanged and sends no reply — in particular no pulse event is
emitted. -/
theorem c1_trigger_counterexample :
    handleCmd ⟨false, false, ⟨10, [3]⟩⟩ 't' 5 = (⟨false, false, ⟨10, [3]⟩⟩, [], none)
  ∧ ¬ (HEvent.pulseOutput 5 ∈ (handleCmd ⟨false, false, ⟨10, [3]⟩⟩ 't' 5).2.1) := by
  decide

/-- C1 (amended): when a `t` command with an unsigned payload arrives
while the engine is paused, the handler clears the Pause Flag,
busy-waits 80 ms and emits a one-shot output pulse of the given length;
in any other state the command does nothing. -/
theorem c1_trigger_amended (st : HandlerState) (arg : Int) (h : st.paused = true) :
    handleCmd st 't' arg =
      ({ st with paused := false },
       [HEvent.busyWaitMs 80, HEvent.pulseOutput arg.toNat], none) := by
  unfold handleCmd
  rw [if_neg (by decide), if_neg (by decide), if_neg (by decide), if_neg (by decide),
    if_pos rfl, if_pos h]

/-- C1 witness: the amended theorem applied to a paused engine with a
5 microsecond trigger request. -/
theorem c1_trigger_witness :
    handleCmd ⟨true, true, ⟨10, [3]⟩⟩ 't' 5 =
      (⟨false, true, ⟨10, [3]⟩⟩, [HEvent.busyWaitMs 80, HEvent.pulseOutput 5], none) :=
  c1_trigger_amended ⟨true, true, ⟨10, [3]⟩⟩ 5 rfl

/-- C2 counterexample: on a buffer of size S = 1 holding the sample 5,
a peek at index -1 hits the `index <= -buf_len` sentinel and replies
"-1", while a peek at index S-1 = 0 replies "5" — so `peek(-1)` does
not equal `peek(S-1)` for every size S ≥ 1. -/
theorem c2_negative_peek_counterexample :
    cmdIndexReply ⟨10, [5]⟩ (-1) ≠ cmdIndexReply ⟨10, [5]⟩ 0
  ∧ cmdIndexReply ⟨10, [5]⟩ (-1) = ("-1")
  ∧ cmdIndexReply ⟨10, [5]⟩ 0 = ("5") := by
  decide

/-- C2 (amended): for every buffer of size S ≥ 2 a peek at index -1
replies the same as a peek at index S-1, and for every S ≥ 1 a peek at
index -S-1 fails with the sentinel reply "-1"; at S = 1 a peek at -1
already satisfies `|index| >= size` and itself replies the sentinel. -/
theorem c2_negative_peek_amended (b : CBuf) :
    (2 ≤ b.data.length →
      cmdIndexReply b (-1) = cmdIndexReply b ((b.data.length : Int) - 1))
  ∧ (1 ≤ b.data.length →
      cmdIndexReply b (-(b.data.length : Int) - 1) = ("-1")) := by
  constructor
  · intro h
    have hS : (2 : Int) ≤ (b.data.length : Int) := by exact_mod_cast h
    have c1 : ¬((b.data.length : Int) ≤ -1 ∨ (-1 : Int) ≤ -(b.data.length : Int)) := by omega
    have c2 : ¬((b.data.length : Int) ≤ (b.data.length : Int) - 1 ∨
        (b.data.length : Int) - 1 ≤ -(b.data.length : Int)) := by omega
    have c3 : ((-1 : Int) < 0) := by norm_num
    have c4 : ¬((b.data.length : Int) - 1 < 0) := by omega
    have c5 : ((b.data.length : Int) + -1).toNat = ((b.data.length : Int) - 1).toNat := by omega
    unfold cmdIndexReply
    rw [if_neg c1, if_neg c2, if_pos c3, if_neg c4, c5]
  · intro h
    have hS : (1 : Int) ≤ (b.data.length : Int) := by exact_mod_cast h
    have c6 : (-(b.data.length : Int) - 1 ≤ -(b.data.length : Int)) := by omega
    unfold cmdIndexReply
    rw [if_pos (Or.inr c6)]
    exact formatReply_uintMax

/-- C2 witness: the amended theorem applied to the size-2 buffer
[5, 7]: `peek(-1)` equals `peek(1)`, and `peek(-3)` replies "-1". -/
theorem c2_negative_peek_witness :
    cmdIndexReply ⟨10, [5, 7]⟩ (-1) = cmdIndexReply ⟨10, [5, 7]⟩ 1
  ∧ cmdIndexReply ⟨10, [5, 7]⟩ (-3) = ("-1") := by
  have h := c2_negative_peek_amended ⟨10, [5, 7]⟩
  exact ⟨h.1 (by decide), h.2 (by decide)⟩

/-- C3 counterexample: `pulse_output` busy-waits
`trigger_len_us / 1000` milliseconds (C integer division), so a request
for a 999 microsecond pulse holds the active level for 0 ms — not for
approximately 999 microseconds as the claim states. -/
theorem c3_hold_duration_counterexample :
    pulse_output ⟨true, true, true, true⟩ false 999 =
      ([LEvent.release, LEvent.requestOutput false, LEvent.setValue true,
        LEvent.busyWaitMs 0, LEvent.setValue false, LEvent.release, LEvent.requestInput],
       none) := by
  decide

/-- C3 (amended): for every requested duration, `pulse_output` follows
the sequence release, request-as-output driven to the idle level, set
the non-idle level, busy-wait `duration_us / 1000` milliseconds
(truncating integer division), set back to the idle level, release,
re-request as input; any failing step prints a diagnostic and
terminates the process.  The busy-wait holds its deadline exactly
`millis * 1000` microseconds past the current time. -/
theorem c3_pulse_sequence_amended (o : LineOracle) (idle : Bool) (us : Nat) :
    ((o.requestOutputOk && o.setActiveOk && o.setIdleOk && o.requestInputOk) = true →
      pulse_output o idle us =
        ([LEvent.release, LEvent.requestOutput idle, LEvent.setValue (!idle),
          LEvent.busyWaitMs (us / 1000), LEvent.setValue idle, LEvent.release,
          LEvent.requestInput], none))
  ∧ ((o.requestOutputOk && o.setActiveOk && o.setIdleOk && o.requestInputOk) = false →
      (pulse_output o idle us).2.isSome = true)
  ∧ (∀ millis now, busyWaitDeadline millis now = now + millis * 1000) := by
  obtain ⟨a, b, c, d⟩ := o
  refine ⟨?_, ?_, fun millis now => by unfold busyWaitDeadline; omega⟩
  · intro h
    simp only [Bool.and_eq_true] at h
    obtain ⟨⟨⟨ha, hb⟩, hc⟩, hd⟩ := h
    subst ha; subst hb; subst hc; subst hd
    rfl
  · intro h
    cases a <;> cases b <;> cases c <;> cases d <;>
      first
      | rfl
      | exact absurd h (by decide)

/-- C3 witness: the amended theorem applied to an all-successful line,
idle-high polarity and a 2500 microsecond request (held 2 ms), and to a
line whose first `set_value` fails. -/
theorem c3_pulse_sequence_witness :
    pulse_output ⟨true, true, true, true⟩ true 2500 =
      ([LEvent.release, LEvent.requestOutput true, LEvent.setValue (!true),
        LEvent.busyWaitMs (2500 / 1000), LEvent.setValue true, LEvent.release,
        LEvent.requestInput], none)
  ∧ (pulse_output ⟨true, false, true, true⟩ true 2500).2.isSome = true
  ∧ busyWaitDeadline 80 1000 = 1000 + 80 * 1000 := by
  obtain ⟨h1, -, h3⟩ := c3_pulse_sequence_amended ⟨true, true, true, true⟩ true 2500
  obtain ⟨-, h2, -⟩ := c3_pulse_sequence_amended ⟨true, false, true, true⟩ true 2500
  exact ⟨h1 rfl, h2 rfl, h3 80 1000⟩

/-- C4: both at engine start and after every resume the sampling state
carries the armed first-change marker with the last level set to idle;
in such a state the first observed transition (necessarily out of the
idle level) is discarded — the buffer is unchanged — while the marker
clears and the timing baseline (reference time and last level) updates;
once the marker is clear, every observed transition enqueues the
elapsed time since the baseline and updates the baseline. -/
theorem c4_first_transition_policy (cfg : PollCfg) :
    (∀ cap t0, (initState cfg cap t0).waiting = true ∧
      (initState cfg cap t0).previousValue = cfg.idleState)
  ∧ (∀ st now, (resumeReset cfg st now).waiting = true ∧
      (resumeReset cfg st now).previousValue = cfg.idleState ∧
      (resumeReset cfg st now).buffer = st.buffer)
  ∧ (∀ st v now, st.waiting = true → st.previousValue = cfg.idleState →
      ¬(cfg.exitOnTimeout = true ∧ cfg.timeoutUs ≤ now - st.previousTime) →
      v ≠ st.previousValue →
      pollStep cfg st v now =
        PollResult.cont { st with waiting := false, previousValue := v, previousTime := now })
  ∧ (∀ st v now, st.waiting = false →
      ¬(cfg.exitOnTimeout = true ∧ cfg.timeoutUs ≤ now - st.previousTime) →
      v ≠ st.previousValue →
      pollStep cfg st v now =
        PollResult.cont { st with buffer := st.buffer.put (now - st.previousTime).toNat,
                                  previousValue := v, previousTime := now }) := by
  refine ⟨fun cap t0 => ⟨rfl, rfl⟩, fun st now => ⟨rfl, rfl, rfl⟩, ?_, ?_⟩
  · intro st v now hw hp hto htr
    unfold pollStep
    rw [if_neg hto, if_pos htr, if_pos ⟨hw, fun hh => htr (hh.trans hp.symm)⟩]
  · intro st v now hw hto htr
    unfold pollStep
    rw [if_neg hto, if_pos htr, if_neg (by simp [hw])]

/-- C4 witness: starting from the armed idle state, a rising edge at
time 10 is discarded (empty buffer stays empty) while the baseline
moves to (10, high); with the marker clear, the same edge enqueues the
10 microsecond delta. -/
theorem c4_first_transition_witness :
    pollStep ⟨false, false, 0⟩ ⟨0, false, true, ⟨3, []⟩⟩ true 10 =
      PollResult.cont ⟨10, true, false, ⟨3, []⟩⟩
  ∧ pollStep ⟨false, false, 0⟩ ⟨0, false, false, ⟨3, []⟩⟩ true 10 =
      PollResult.cont ⟨10, true, false, ⟨3, [10]⟩⟩ := by
  obtain ⟨-, -, h3, h4⟩ := c4_first_transition_policy ⟨false, false, 0⟩
  exact ⟨h3 ⟨0, false, true, ⟨3, []⟩⟩ true 10 rfl rfl (by decide) (by decide),
         h4 ⟨0, false, false, ⟨3, []⟩⟩ true 10 rfl (by decide) (by decide)⟩

/-- C5: with exit-on-timeout configured, every sampling iteration —
whatever level was read, transition or not — compares the elapsed time
since the timing baseline against the bound, and reaching or exceeding
it makes the engine dump the entire ring buffer (oldest first, as a
comma-separated list of `"%d"`-formatted entries) and exit the
process. -/
theorem c5_timeout_dump (cfg : PollCfg) (st : PollState) (v : Bool) (now : Int)
    (hexit : cfg.exitOnTimeout = true)
    (hto : cfg.timeoutUs ≤ now - st.previousTime) :
    pollStep cfg st v now = PollResult.exited (printPulses st.buffer)
  ∧ printPulses st.buffer = String.intercalate (", ") (st.buffer.data.map formatReply) := by
  constructor
  · unfold pollStep
    rw [if_pos ⟨hexit, hto⟩]
  · exact printLoop_eq_intercalate st.buffer.data

/-- C5 witness: a 5 microsecond timeout engine whose level did not
change (no transition) exits at time 5 dumping the buffer [7, 9] as
"7, 9". -/
theorem c5_timeout_witness :
    pollStep ⟨false, true, 5⟩ ⟨0, false, false, ⟨3, [7, 9]⟩⟩ false 5 =
      PollResult.exited (printPulses ⟨3, [7, 9]⟩)
  ∧ printPulses (⟨3, [7, 9]⟩ : CBuf) = ("7, 9") := by
  refine ⟨(c5_timeout_dump ⟨false, true, 5⟩ ⟨0, false, false, ⟨3, [7, 9]⟩⟩ false 5 rfl
    (by decide)).1, by decide⟩

/-- C6 counterexample: popping the sample 4294967295 replies "-1", not
the sample's decimal string "4294967295" — the reply goes through the
signed `"%d"` conversion, so the claim's "replies with its decimal
string" fails for samples at or above 2^31. -/
theorem c6_pop_reply_counterexample :
    (handleCmd ⟨false, false, ⟨5, [4294967295]⟩⟩ '^' 0).2.2 = some ("-1")
  ∧ (handleCmd ⟨false, false, ⟨5, [4294967295]⟩⟩ '^' 0).2.2 ≠ some ("4294967295") := by
  decide

/-- C6 (amended): the `^` command pops the oldest sample (FIFO order)
and replies with the decimal string of the sample's signed 32-bit
reinterpretation — its plain decimal string whenever the sample is
below 2^31; on an empty buffer it replies exactly "-1" and leaves the
buffer unchanged. -/
theorem c6_pop_amended (st : HandlerState) (arg : Int) :
    (st.buffer.data = [] → handleCmd st '^' arg = (st, [], some ("-1")))
  ∧ (∀ x rest, st.buffer.data = x :: rest →
      (handleCmd st '^' arg).1.buffer.data = rest
      ∧ (handleCmd st '^' arg).2.2 = some (formatReply x)
      ∧ (x < 2 ^ 31 → formatReply x = Nat.repr x)) := by
  constructor
  · intro hd
    have hg : st.buffer.get = none := by
      unfold CBuf.get
      rw [hd]
    unfold handleCmd
    rw [if_neg (by decide), if_neg (by decide), if_neg (by decide), if_neg (by decide),
      if_neg (by decide), if_pos rfl, hg, formatReply_uintMax]
  · intro x rest hd
    have hg : st.buffer.get = some (x, { st.buffer with data := rest }) := by
      unfold CBuf.get
      rw [hd]
    have hmain : handleCmd st '^' arg =
        ({ st with buffer := { st.buffer with data := rest } }, [], some (formatReply x)) := by
      unfold handleCmd
      rw [if_neg (by decide), if_neg (by decide), if_neg (by decide), if_neg (by decide),
        if_neg (by decide), if_pos rfl, hg]
    rw [hmain]
    exact ⟨rfl, rfl, fun hx => formatReply_small x hx⟩

/-- C6 witness: the amended theorem applied to an empty buffer (reply
"-1", buffer untouched) and to the buffer [10, 20] (pop leaves [20] and
replies the decimal string "10"). -/
theorem c6_pop_witness :
    handleCmd ⟨false, false, ⟨5, ([] : List Nat)⟩⟩ '^' 0 =
      (⟨false, false, ⟨5, []⟩⟩, [], some ("-1"))
  ∧ (handleCmd ⟨false, false, ⟨5, [10, 20]⟩⟩ '^' 0).1.buffer.data = [20]
  ∧ (handleCmd ⟨false, false, ⟨5, [10, 20]⟩⟩ '^' 0).2.2 = some (formatReply 10)
  ∧ formatReply 10 = Nat.repr 10 := by
  obtain ⟨h1, -⟩ := c6_pop_amended ⟨false, false, ⟨5, ([] : List Nat)⟩⟩ 0
  obtain ⟨-, h2⟩ := c6_pop_amended ⟨false, false, ⟨5, [10, 20]⟩⟩ 0
  obtain ⟨ha, hb, hc⟩ := h2 10 [20] rfl
  exact ⟨h1 rfl, ha, hb, hc (by decide)⟩

/-- C7: `calculate_us_per_tick` requests the line as input (failure is
fatal), performs exactly 100 unconditional reads — indices 0 through 99
— between the two wall-clock timestamps, releases the line and returns
`(end - start) / 100`; any read returning the -1 error sentinel during
calibration terminates the process with a diagnostic. -/
theorem c7_calibration (reqInOk : Bool) (readVal : Nat → Int) (tStart tEnd : ℚ) :
    (reqInOk = true → (∀ j, j < 100 → readVal j ≠ -1) →
      calculate_us_per_tick reqInOk readVal tStart tEnd =
        Except.ok ((tEnd - tStart) / 100,
          CalEvent.requestInput :: ((List.range 100).map CalEvent.read ++ [CalEvent.release])))
  ∧ (reqInOk = true → (∃ j, j < 100 ∧ readVal j = -1) →
      calculate_us_per_tick reqInOk readVal tStart tEnd =
        Except.error ("Unable to read line during calibration"))
  ∧ (reqInOk = false →
      calculate_us_per_tick reqInOk readVal tStart tEnd =
        Except.error ("Unable to set line to input")) := by
  refine ⟨?_, ?_, ?_⟩
  · intro hreq h
    have hc := calibLoop_ok readVal 100 0 (fun j hj => by simpa using h j hj)
    unfold calculate_us_per_tick
    rw [hreq, if_neg (by decide), hc]
    simp only [Nat.zero_add]
  · intro hreq h
    have hc := calibLoop_err readVal 100 0
      (by obtain ⟨j, hj, hv⟩ := h; exact ⟨j, hj, by simpa using hv⟩)
    unfold calculate_us_per_tick
    rw [hreq, if_neg (by decide), hc]
  · intro hreq
    unfold calculate_us_per_tick
    rw [hreq, if_pos rfl]

/-- C7 witness: the theorem applied to an always-zero line over a 200
microsecond window (constant 2 returned after exactly 100 reads framed
by the input request and the release), to a line failing on read, and
to a failing input request. -/
theorem c7_calibration_witness :
    calculate_us_per_tick true (fun _ => 0) 0 200 =
      Except.ok (((200 : ℚ) - 0) / 100,
        CalEvent.requestInput :: ((List.range 100).map CalEvent.read ++ [CalEvent.release]))
  ∧ calculate_us_per_tick true (fun _ => -1) 0 200 =
      Except.error ("Unable to read line during calibration")
  ∧ calculate_us_per_tick false (fun _ => 0) 0 200 =
      Except.error ("Unable to set line to input") := by
  obtain ⟨h1, -, -⟩ := c7_calibration true (fun _ => 0) 0 200
  obtain ⟨-, h2, -⟩ := c7_calibration true (fun _ => -1) 0 200
  obtain ⟨-, -, h3⟩ := c7_calibration false (fun _ => 0) 0 200
  exact ⟨h1 rfl (fun j hj => by decide), h2 rfl ⟨0, by omega, rfl⟩, h3 rfl⟩

/-- C8: every sample reply goes through the signed 32-bit `"%d"`
conversion: any value at or above 2^31 prints as a negative number; the
sample 4294967295 prints exactly "-1", making a pop of it
indistinguishable from the empty-buffer sentinel reply, an indexed peek
of it reply "-1", and a shutdown dump render it as "-1". -/
theorem c8_signed_reply_format :
    (∀ v : Nat, 2 ^ 31 ≤ v → v < 2 ^ 32 → toInt32 v < 0)
  ∧ formatReply 4294967295 = ("-1")
  ∧ (handleCmd ⟨false, false, ⟨5, [4294967295]⟩⟩ '^' 0).2.2 =
      (handleCmd ⟨false, false, ⟨5, ([] : List Nat)⟩⟩ '^' 0).2.2
  ∧ cmdIndexReply ⟨5, [4294967295, 7]⟩ 0 = ("-1")
  ∧ printPulses ⟨5, [4294967295]⟩ = ("-1") := by
  refine ⟨?_, by decide, by decide, by decide, by decide⟩
  intro v h1 h2
  unfold toInt32
  rw [Nat.mod_eq_of_lt h2, if_neg (by omega)]
  omega

/-- C8 witness: the quantified part applied to the concrete sample
2^31, whose signed reinterpretation is negative. -/
theorem c8_signed_reply_witness : toInt32 2147483648 < 0 :=
  c8_signed_reply_format.1 2147483648 (by norm_num) (by norm_num)

/-- C9: a `t` command received while the engine is not paused is
silently ignored: the handler state (Pause Flag, `was_paused`, ring
buffer) is returned unchanged, no busy-wait or pulse event is
performed, and no reply is sent.  The sampling thread's timing baseline
is untouched since no event reaches it. -/
theorem c9_trigger_ignored_unpaused (st : HandlerState) (arg : Int)
    (h : st.paused = false) :
    handleCmd st 't' arg = (st, [], none) := by
  unfold handleCmd
  rw [if_neg (by decide), if_neg (by decide), if_neg (by decide), if_neg (by decide),
    if_pos rfl, if_neg (by simp [h])]

/-- C9 witness: the theorem applied to a running (unpaused) engine
holding one sample. -/
theorem c9_trigger_ignored_witness :
    handleCmd ⟨false, false, ⟨10, [3]⟩⟩ 't' 7 = (⟨false, false, ⟨10, [3]⟩⟩, [], none) :=
  c9_trigger_ignored_unpaused ⟨false, false, ⟨10, [3]⟩⟩ 7 rfl

/-- C10: for any backlog of stale messages, the startup handshake posts
a readiness announcement that is exactly the single byte '!' tagged
with reply type 2, and after it every stale request message (type 1)
has been drained from the queue. -/
theorem c10_ready_announcement (pending : List QMsg) :
    (startupHandshake pending).2 = { msgType := 2, payload := ("!") }
  ∧ ((startupHandshake pending).2).payload.length = 1
  ∧ ((startupHandshake pending).1).all (fun m => m.msgType != 1) = true := by
  refine ⟨rfl, rfl, ?_⟩
  rw [List.all_eq_true]
  intro m hm
  simp only [startupHandshake, drainRequests, readyAnnouncement, List.mem_append,
    List.mem_filter, List.mem_singleton] at hm
  rcases hm with ⟨-, hp⟩ | rfl
  · exact hp
  · rfl
